import Mathlib

/-!
Shallow embedding of `netlify/functions/trigger-update.js` from the
issue-dashboard repository.

The handler is an async JavaScript function of an inbound HTTP event.
We embed it as a pure Lean function whose extra parameters model the
ambient effects the source reads:

* `Env` models the three `process.env` lookups (`GITHUB_TOKEN`,
  `GH_TOKEN`, `GH_PAT`); `none` is an unset variable and `some s` a
  variable set to the string `s` (possibly empty, which is falsy in JS).
* `FetchOutcome` models the single outbound `fetch` call: either the
  promise rejected (`thrown msg`, carrying `error.message`) or an HTTP
  response arrived, with a status and the result of `await response.text()`
  (which can itself reject).
* `DateTime` models the instant returned by `new Date()`; the JS runtime
  clock always yields a valid calendar instant, captured by `DateTime.Valid`.

The response body is modelled as the object literal passed to
`JSON.stringify`: a record of the optional fields that occur across the
branches.  The second component of the handler result records the outbound
workflow-dispatch request when one is issued, and is `none` when the
handler returns without calling `fetch`.
-/

/-- The inbound Netlify event.  The source only ever reads `httpMethod`;
the remaining fields are carried to state independence properties. -/
structure Event where
  httpMethod : String
  body : Option String
  headers : List (String × String)
  queryStringParameters : List (String × String)
  path : String
deriving Repr, DecidableEq

/-- The three environment variables the source consults. -/
structure Env where
  GITHUB_TOKEN : Option String
  GH_TOKEN : Option String
  GH_PAT : Option String
deriving Repr, DecidableEq

/-- JavaScript truthiness of an environment lookup: an unset variable is
`undefined` (falsy) and the empty string is falsy. -/
def jsTruthy (v : Option String) : Bool :=
  match v with
  | none => false
  | some s => !s.isEmpty

/-- JavaScript `a || b`: the left operand when truthy, otherwise the right. -/
def jsOr (a b : Option String) : Option String :=
  if jsTruthy a then a else b

/-- Line 12 of the source:
`process.env.GITHUB_TOKEN || process.env.GH_TOKEN || process.env.GH_PAT`. -/
def resolvedToken (env : Env) : Option String :=
  jsOr env.GITHUB_TOKEN (jsOr env.GH_TOKEN env.GH_PAT)

def REPO_OWNER : String := "Tina0529"

def REPO_NAME : String := "issue-dashboard"

def WORKFLOW_ID : String := "update.yml"

/-- The workflow-dispatch URL built on lines 42-43 of the source. -/
def dispatchUrl : String :=
  "https://api.github.com/repos/" ++ REPO_OWNER ++ "/" ++ REPO_NAME ++
    "/actions/workflows/" ++ WORKFLOW_ID ++ "/dispatches"

/-- The JSON object literal passed to `JSON.stringify` for a response body.
Fields absent from a branch are `none`. -/
structure Body where
  success : Option Bool := none
  message : Option String := none
  timestamp : Option String := none
  error : Option String := none
  hint : Option String := none
  details : Option String := none
deriving Repr, DecidableEq

/-- A handler response: status code, response headers (the 405 branch sets
none at all), and the body object. -/
structure Response where
  statusCode : Nat
  headers : List (String × String)
  body : Body
deriving Repr, DecidableEq

/-- The header object repeated on every branch except the 405 one. -/
def corsHeaders : List (String × String) :=
  [("Content-Type", "application/json"), ("Access-Control-Allow-Origin", "*")]

deriving instance DecidableEq for Except

/-- The upstream HTTP response: its status, and the result of
`await response.text()` (`Except.error` when reading the body rejects). -/
structure FetchResponse where
  status : Nat
  text : Except String String
deriving Repr, DecidableEq

/-- Outcome of the outbound `fetch` call itself. -/
inductive FetchOutcome where
  | ok (resp : FetchResponse)
  | thrown (msg : String)
deriving Repr, DecidableEq

/-- The outbound workflow-dispatch request assembled on lines 42-55. -/
structure OutboundRequest where
  url : String
  method : String
  authorization : String
  accept : String
  contentType : String
  ref : String
deriving Repr, DecidableEq

/-- The outbound request the handler issues, as a function of the
environment alone: fixed URL, POST, bearer token, fixed ref `main`. -/
def outboundRequestFor (env : Env) : OutboundRequest :=
  { url := dispatchUrl
    method := "POST"
    authorization := "Bearer " ++ (resolvedToken env).getD ""
    accept := "application/vnd.github.v3+json"
    contentType := "application/json"
    ref := "main" }

/-- A calendar instant as held by a JS `Date`; the runtime clock always
produces a valid one (see `DateTime.Valid`). -/
structure DateTime where
  year : Nat
  month : Nat
  day : Nat
  hour : Nat
  minute : Nat
  second : Nat
  millis : Nat
deriving Repr, DecidableEq

def isLeapYear (y : Nat) : Bool :=
  (y % 4 == 0 && y % 100 != 0) || y % 400 == 0

def daysInMonth (y m : Nat) : Nat :=
  if m = 2 then (if isLeapYear y then 29 else 28)
  else if m = 4 ∨ m = 6 ∨ m = 9 ∨ m = 11 then 30
  else 31

/-- Validity of a calendar instant, as guaranteed for any value a JS
`Date` holds in the `toISOString`-renderable range. -/
def DateTime.Valid (dt : DateTime) : Prop :=
  dt.year ≤ 9999 ∧ 1 ≤ dt.month ∧ dt.month ≤ 12 ∧ 1 ≤ dt.day ∧
    dt.day ≤ daysInMonth dt.year dt.month ∧ dt.hour ≤ 23 ∧
    dt.minute ≤ 59 ∧ dt.second ≤ 59 ∧ dt.millis ≤ 999

instance instDecidableDateTimeValid (dt : DateTime) : Decidable dt.Valid := by
  unfold DateTime.Valid
  exact inferInstance

/-- The decimal digit character for `n % 10`. -/
def digitChar (n : Nat) : Char :=
  match n % 10 with
  | 0 => '0' | 1 => '1' | 2 => '2' | 3 => '3' | 4 => '4'
  | 5 => '5' | 6 => '6' | 7 => '7' | 8 => '8' | _ => '9'

/-- Read one decimal digit character back to its value. -/
def readDigit (c : Char) : Option Nat :=
  if 48 ≤ c.toNat ∧ c.toNat ≤ 57 then some (c.toNat - 48) else none

/-- `Date.prototype.toISOString` for instants in years 0-9999: the fixed
24-character form `YYYY-MM-DDTHH:MM:SS.mmmZ`. -/
def toISOString (dt : DateTime) : String :=
  String.mk
    [digitChar (dt.year / 1000), digitChar (dt.year / 100),
     digitChar (dt.year / 10), digitChar dt.year, '-',
     digitChar (dt.month / 10), digitChar dt.month, '-',
     digitChar (dt.day / 10), digitChar dt.day, 'T',
     digitChar (dt.hour / 10), digitChar dt.hour, ':',
     digitChar (dt.minute / 10), digitChar dt.minute, ':',
     digitChar (dt.second / 10), digitChar dt.second, '.',
     digitChar (dt.millis / 100), digitChar (dt.millis / 10),
     digitChar dt.millis, 'Z']

/-- Parse the 24-character ISO form back into a `DateTime`, rejecting any
string that is not a well-formed, calendar-valid date-time. -/
def parseISOChars (cs : List Char) : Option DateTime :=
  match cs with
  | [y1, y2, y3, y4, '-', mo1, mo2, '-', d1, d2, 'T',
     h1, h2, ':', mi1, mi2, ':', se1, se2, '.', ms1, ms2, ms3, 'Z'] =>
    match readDigit y1, readDigit y2, readDigit y3, readDigit y4,
          readDigit mo1, readDigit mo2, readDigit d1, readDigit d2,
          readDigit h1, readDigit h2, readDigit mi1, readDigit mi2,
          readDigit se1, readDigit se2, readDigit ms1, readDigit ms2,
          readDigit ms3 with
    | some a1, some a2, some a3, some a4, some b1, some b2, some c1, some c2,
      some e1, some e2, some f1, some f2, some g1, some g2, some k1, some k2,
      some k3 =>
      let dt : DateTime :=
        { year := 1000 * a1 + 100 * a2 + 10 * a3 + a4
          month := 10 * b1 + b2
          day := 10 * c1 + c2
          hour := 10 * e1 + e2
          minute := 10 * f1 + f2
          second := 10 * g1 + g2
          millis := 100 * k1 + 10 * k2 + k3 }
      if dt.Valid then some dt else none
    | _, _, _, _, _, _, _, _, _, _, _, _, _, _, _, _, _ => none
  | _ => none

def parseISO (s : String) : Option DateTime :=
  parseISOChars s.data

/-- The handler of `netlify/functions/trigger-update.js`, line for line.
Returns the response together with the outbound request when one was
issued (`none` on the branches that return before calling `fetch`). -/
def handler (event : Event) (env : Env) (f : FetchOutcome) (now : DateTime) :
    Response × Option OutboundRequest :=
  if event.httpMethod ≠ "POST" then
    ({ statusCode := 405, headers := [],
       body := { error := some "Method not allowed" } }, none)
  else if jsTruthy (resolvedToken env) = false then
    ({ statusCode := 500, headers := corsHeaders,
       body := { error := some "GitHub token not configured",
                 hint := some "Please add GITHUB_TOKEN or GH_TOKEN in Netlify Environment Variables with Functions scope" } },
     none)
  else
    let req := outboundRequestFor env
    match f with
    | .thrown msg =>
      ({ statusCode := 500, headers := corsHeaders,
         body := { error := some msg } }, some req)
    | .ok resp =>
      if resp.status = 204 then
        ({ statusCode := 200, headers := corsHeaders,
           body := { success := some true,
                     message := some "Workflow triggered successfully",
                     timestamp := some (toISOString now) } }, some req)
      else
        match resp.text with
        | .error msg =>
          ({ statusCode := 500, headers := corsHeaders,
             body := { error := some msg } }, some req)
        | .ok errorText =>
          ({ statusCode := resp.status, headers := corsHeaders,
             body := { error := some "Failed to trigger workflow",
                       details := some errorText } }, some req)

theorem daysInMonth_le (y m : Nat) : daysInMonth y m ≤ 31 := by
  unfold daysInMonth
  split_ifs <;> omega

theorem readDigit_digitChar (n : Nat) : readDigit (digitChar n) = some (n % 10) := by
  have h : n % 10 < 10 := Nat.mod_lt _ (by omega)
  unfold digitChar
  generalize hk : n % 10 = k at h ⊢
  interval_cases k <;> decide

theorem stringDataMk (l : List Char) : (String.mk l).data = l := rfl

theorem parseISO_toISOString (dt : DateTime) (h : dt.Valid) :
    parseISO (toISOString dt) = some dt := by
  obtain ⟨y, mo, d, hh, mi, ss, ms⟩ := dt
  simp only [DateTime.Valid] at h
  obtain ⟨h1, h2, h3, h4, h5, h6, h7, h8, h9⟩ := h
  have hd : d ≤ 31 := le_trans h5 (daysInMonth_le y mo)
  have e1 : 1000 * (y / 1000 % 10) + 100 * (y / 100 % 10) + 10 * (y / 10 % 10) + y % 10 = y := by omega
  have e2 : 10 * (mo / 10 % 10) + mo % 10 = mo := by omega
  have e3 : 10 * (d / 10 % 10) + d % 10 = d := by omega
  have e4 : 10 * (hh / 10 % 10) + hh % 10 = hh := by omega
  have e5 : 10 * (mi / 10 % 10) + mi % 10 = mi := by omega
  have e6 : 10 * (ss / 10 % 10) + ss % 10 = ss := by omega
  have e7 : 100 * (ms / 100 % 10) + 10 * (ms / 10 % 10) + ms % 10 = ms := by omega
  simp only [parseISO, toISOString, stringDataMk, parseISOChars, readDigit_digitChar]
  rw [e1, e2, e3, e4, e5, e6, e7]
  rw [if_pos]
  exact ⟨h1, h2, h3, h4, h5, h6, h7, h8, h9⟩

theorem jsTruthy_some (s : String) (h : s ≠ "") : jsTruthy (some s) = true := by
  have he : s.isEmpty = false := by
    cases he : s.isEmpty
    · rfl
    · exact absurd ((String.isEmpty_iff s).mp he) h
  simp [jsTruthy, he]

theorem handler_not_post (event : Event) (env : Env) (f : FetchOutcome) (now : DateTime)
    (hm : event.httpMethod ≠ "POST") :
    handler event env f now =
      ({ statusCode := 405, headers := [],
         body := { error := some "Method not allowed" } }, none) := by
  simp [handler, hm]

theorem handler_no_token (event : Event) (env : Env) (f : FetchOutcome) (now : DateTime)
    (hm : event.httpMethod = "POST") (ht : jsTruthy (resolvedToken env) = false) :
    handler event env f now =
      ({ statusCode := 500, headers := corsHeaders,
         body := { error := some "GitHub token not configured",
                   hint := some "Please add GITHUB_TOKEN or GH_TOKEN in Netlify Environment Variables with Functions scope" } },
       none) := by
  simp [handler, hm, ht]

theorem handler_thrown (event : Event) (env : Env) (msg : String) (now : DateTime)
    (hm : event.httpMethod = "POST") (ht : jsTruthy (resolvedToken env) = true) :
    handler event env (FetchOutcome.thrown msg) now =
      ({ statusCode := 500, headers := corsHeaders,
         body := { error := some msg } }, some (outboundRequestFor env)) := by
  simp [handler, hm, ht]

theorem handler_204 (event : Event) (env : Env) (resp : FetchResponse) (now : DateTime)
    (hm : event.httpMethod = "POST") (ht : jsTruthy (resolvedToken env) = true)
    (hs : resp.status = 204) :
    handler event env (FetchOutcome.ok resp) now =
      ({ statusCode := 200, headers := corsHeaders,
         body := { success := some true,
                   message := some "Workflow triggered successfully",
                   timestamp := some (toISOString now) } }, some (outboundRequestFor env)) := by
  simp [handler, hm, ht, hs]

theorem handler_upstream_err (event : Event) (env : Env) (resp : FetchResponse) (now : DateTime)
    (t : String) (hm : event.httpMethod = "POST") (ht : jsTruthy (resolvedToken env) = true)
    (hs : resp.status ≠ 204) (htx : resp.text = Except.ok t) :
    handler event env (FetchOutcome.ok resp) now =
      ({ statusCode := resp.status, headers := corsHeaders,
         body := { error := some "Failed to trigger workflow",
                   details := some t } }, some (outboundRequestFor env)) := by
  simp [handler, hm, ht, hs, htx]

theorem handler_text_err (event : Event) (env : Env) (resp : FetchResponse) (now : DateTime)
    (msg : String) (hm : event.httpMethod = "POST") (ht : jsTruthy (resolvedToken env) = true)
    (hs : resp.status ≠ 204) (htx : resp.text = Except.error msg) :
    handler event env (FetchOutcome.ok resp) now =
      ({ statusCode := 500, headers := corsHeaders,
         body := { error := some msg } }, some (outboundRequestFor env)) := by
  simp [handler, hm, ht, hs, htx]

theorem handler_success_or_error (event : Event) (env : Env) (f : FetchOutcome) (now : DateTime) :
    (handler event env f now).1.body.success = some true ∨
      (handler event env f now).1.body.error ≠ none := by
  by_cases hm : event.httpMethod = "POST"
  · cases ht : jsTruthy (resolvedToken env) with
    | false => rw [handler_no_token event env f now hm ht]; right; simp
    | true =>
      cases f with
      | thrown msg => rw [handler_thrown event env msg now hm ht]; right; simp
      | ok resp =>
        by_cases hs : resp.status = 204
        · rw [handler_204 event env resp now hm ht hs]; left; rfl
        · cases htx : resp.text with
          | error msg => rw [handler_text_err event env resp now msg hm ht hs htx]; right; simp
          | ok t => rw [handler_upstream_err event env resp now t hm ht hs htx]; right; simp
  · rw [handler_not_post event env f now hm]; right; simp

theorem handler_cors_post (event : Event) (env : Env) (f : FetchOutcome) (now : DateTime)
    (hm : event.httpMethod = "POST") :
    (handler event env f now).1.headers = corsHeaders := by
  cases ht : jsTruthy (resolvedToken env) with
  | false => rw [handler_no_token event env f now hm ht]
  | true =>
    cases f with
    | thrown msg => rw [handler_thrown event env msg now hm ht]
    | ok resp =>
      by_cases hs : resp.status = 204
      · rw [handler_204 event env resp now hm ht hs]
      · cases htx : resp.text with
        | error msg => rw [handler_text_err event env resp now msg hm ht hs htx]
        | ok t => rw [handler_upstream_err event env resp now t hm ht hs htx]

/-- Claim C2: a relay invocation whose HTTP method is not POST returns
status 405 and performs zero outbound calls to the workflow-dispatch
endpoint. -/
theorem relay_rejects_non_post (event : Event) (env : Env) (f : FetchOutcome) (now : DateTime)
    (hm : event.httpMethod ≠ "POST") :
    (handler event env f now).1.statusCode = 405 ∧ (handler event env f now).2 = none := by
  rw [handler_not_post event env f now hm]
  exact ⟨rfl, rfl⟩

/-- Witness for C2 at a concrete GET request. -/
theorem relay_rejects_non_post_witness :
    (handler ⟨"GET", none, [], [], "/"⟩ ⟨some "tok", none, none⟩
        (FetchOutcome.ok ⟨204, Except.ok ""⟩) ⟨2026, 10, 11, 0, 0, 0, 0⟩).1.statusCode = 405 ∧
    (handler ⟨"GET", none, [], [], "/"⟩ ⟨some "tok", none, none⟩
        (FetchOutcome.ok ⟨204, Except.ok ""⟩) ⟨2026, 10, 11, 0, 0, 0, 0⟩).2 = none :=
  relay_rejects_non_post _ _ _ _ (by decide)

/-- Claim C3: a POST invocation where none of the three credential
variables holds a non-empty value returns status 500 with the remediation
hint in the body, and performs zero outbound calls. -/
theorem relay_missing_token_500 (event : Event) (env : Env) (f : FetchOutcome) (now : DateTime)
    (hm : event.httpMethod = "POST")
    (h1 : jsTruthy env.GITHUB_TOKEN = false) (h2 : jsTruthy env.GH_TOKEN = false)
    (h3 : jsTruthy env.GH_PAT = false) :
    (handler event env f now).1.statusCode = 500 ∧
    (handler event env f now).1.body.hint =
      some "Please add GITHUB_TOKEN or GH_TOKEN in Netlify Environment Variables with Functions scope" ∧
    (handler event env f now).2 = none := by
  have ht : jsTruthy (resolvedToken env) = false := by
    simp [resolvedToken, jsOr, h1, h2, h3]
  rw [handler_no_token event env f now hm ht]
  exact ⟨rfl, rfl, rfl⟩

/-- Witness for C3: one variable unset, one set to the empty string. -/
theorem relay_missing_token_500_witness :
    (handler ⟨"POST", none, [], [], "/"⟩ ⟨none, some "", none⟩
        (FetchOutcome.ok ⟨204, Except.ok ""⟩) ⟨2026, 10, 11, 0, 0, 0, 0⟩).1.statusCode = 500 ∧
    (handler ⟨"POST", none, [], [], "/"⟩ ⟨none, some "", none⟩
        (FetchOutcome.ok ⟨204, Except.ok ""⟩) ⟨2026, 10, 11, 0, 0, 0, 0⟩).1.body.hint =
      some "Please add GITHUB_TOKEN or GH_TOKEN in Netlify Environment Variables with Functions scope" ∧
    (handler ⟨"POST", none, [], [], "/"⟩ ⟨none, some "", none⟩
        (FetchOutcome.ok ⟨204, Except.ok ""⟩) ⟨2026, 10, 11, 0, 0, 0, 0⟩).2 = none :=
  relay_missing_token_500 _ _ _ _ rfl (by decide) (by decide) (by decide)

/-- Claim C4: the credential is resolved by trying GITHUB_TOKEN, then
GH_TOKEN, then GH_PAT, and the first of the three holding a non-empty
value wins (an unset variable and an empty string are both passed over). -/
theorem relay_token_priority (env : Env) :
    (∀ s : String, env.GITHUB_TOKEN = some s → s ≠ "" → resolvedToken env = some s) ∧
    (∀ s : String, jsTruthy env.GITHUB_TOKEN = false → env.GH_TOKEN = some s → s ≠ "" →
      resolvedToken env = some s) ∧
    (∀ s : String, jsTruthy env.GITHUB_TOKEN = false → jsTruthy env.GH_TOKEN = false →
      env.GH_PAT = some s → resolvedToken env = some s) := by
  refine ⟨?_, ?_, ?_⟩
  · intro s hs hne
    simp [resolvedToken, jsOr, hs, jsTruthy_some s hne]
  · intro s h1 hs hne
    simp [resolvedToken, jsOr, h1, hs, jsTruthy_some s hne]
  · intro s h1 h2 hs
    simp [resolvedToken, jsOr, h1, h2, hs]

/-- Witness for C4: GITHUB_TOKEN unset, so GH_TOKEN wins. -/
theorem relay_token_priority_witness :
    resolvedToken ⟨none, some "tokB", none⟩ = some "tokB" :=
  (relay_token_priority ⟨none, some "tokB", none⟩).2.1 "tokB" rfl rfl (by decide)

/-- Claim C5: a POST invocation with a credential where the upstream
answers any status other than 204 relays that status code verbatim and
attaches the literal upstream body text as the details field. -/
theorem relay_upstream_error_verbatim (event : Event) (env : Env) (resp : FetchResponse)
    (now : DateTime) (t : String)
    (hm : event.httpMethod = "POST") (ht : jsTruthy (resolvedToken env) = true)
    (hs : resp.status ≠ 204) (htx : resp.text = Except.ok t) :
    (handler event env (FetchOutcome.ok resp) now).1.statusCode = resp.status ∧
    (handler event env (FetchOutcome.ok resp) now).1.body.details = some t := by
  rw [handler_upstream_err event env resp now t hm ht hs htx]
  exact ⟨rfl, rfl⟩

/-- Witness for C5 at upstream status 422. -/
theorem relay_upstream_error_verbatim_witness :
    (handler ⟨"POST", none, [], [], "/"⟩ ⟨some "tok", none, none⟩
        (FetchOutcome.ok ⟨422, Except.ok "Validation Failed"⟩)
        ⟨2026, 10, 11, 0, 0, 0, 0⟩).1.statusCode = 422 ∧
    (handler ⟨"POST", none, [], [], "/"⟩ ⟨some "tok", none, none⟩
        (FetchOutcome.ok ⟨422, Except.ok "Validation Failed"⟩)
        ⟨2026, 10, 11, 0, 0, 0, 0⟩).1.body.details = some "Validation Failed" :=
  relay_upstream_error_verbatim _ _ _ _ _ rfl (by decide) (by decide) rfl

/-- Claim C6: a POST invocation with a credential where the outbound call
itself throws returns the generic 500 response with a JSON error body. -/
theorem relay_network_error_500 (event : Event) (env : Env) (msg : String) (now : DateTime)
    (hm : event.httpMethod = "POST") (ht : jsTruthy (resolvedToken env) = true) :
    (handler event env (FetchOutcome.thrown msg) now).1.statusCode = 500 ∧
    (handler event env (FetchOutcome.thrown msg) now).1.headers = corsHeaders ∧
    (handler event env (FetchOutcome.thrown msg) now).1.body.error = some msg := by
  rw [handler_thrown event env msg now hm ht]
  exact ⟨rfl, rfl, rfl⟩

/-- Witness for C6 at a concrete rejected fetch. -/
theorem relay_network_error_500_witness :
    (handler ⟨"POST", none, [], [], "/"⟩ ⟨some "tok", none, none⟩
        (FetchOutcome.thrown "getaddrinfo ENOTFOUND api.github.com")
        ⟨2026, 10, 11, 0, 0, 0, 0⟩).1.statusCode = 500 ∧
    (handler ⟨"POST", none, [], [], "/"⟩ ⟨some "tok", none, none⟩
        (FetchOutcome.thrown "getaddrinfo ENOTFOUND api.github.com")
        ⟨2026, 10, 11, 0, 0, 0, 0⟩).1.headers = corsHeaders ∧
    (handler ⟨"POST", none, [], [], "/"⟩ ⟨some "tok", none, none⟩
        (FetchOutcome.thrown "getaddrinfo ENOTFOUND api.github.com")
        ⟨2026, 10, 11, 0, 0, 0, 0⟩).1.body.error =
      some "getaddrinfo ENOTFOUND api.github.com" :=
  relay_network_error_500 _ _ _ _ rfl (by decide)

/-- Claim C1, counterexample: the source maps only upstream status 204 to
success; an upstream 202 is relayed as an error (status 202, no success
flag), refuting the "202 or 204" reading. -/
theorem relay_202_not_success :
    (handler ⟨"POST", none, [], [], "/"⟩ ⟨some "tok", none, none⟩
        (FetchOutcome.ok ⟨202, Except.ok "Accepted"⟩)
        ⟨2026, 10, 11, 0, 0, 0, 0⟩).1.statusCode = 202 ∧
    (handler ⟨"POST", none, [], [], "/"⟩ ⟨some "tok", none, none⟩
        (FetchOutcome.ok ⟨202, Except.ok "Accepted"⟩)
        ⟨2026, 10, 11, 0, 0, 0, 0⟩).1.body.success = none := by
  exact ⟨rfl, rfl⟩

/-- Claim C1 (amended): a POST invocation with a credential where the
upstream answers exactly 204 yields status 200 with success true and a
timestamp field that parses back as a valid date-time. -/
theorem relay_204_success (event : Event) (env : Env) (resp : FetchResponse) (now : DateTime)
    (hm : event.httpMethod = "POST") (ht : jsTruthy (resolvedToken env) = true)
    (hs : resp.status = 204) (hv : now.Valid) :
    (handler event env (FetchOutcome.ok resp) now).1.statusCode = 200 ∧
    (handler event env (FetchOutcome.ok resp) now).1.body.success = some true ∧
    (handler event env (FetchOutcome.ok resp) now).1.body.timestamp =
      some (toISOString now) ∧
    parseISO (toISOString now) = some now := by
  rw [handler_204 event env resp now hm ht hs]
  exact ⟨rfl, rfl, rfl, parseISO_toISOString now hv⟩

/-- Witness for the amended C1 at a concrete instant. -/
theorem relay_204_success_witness :
    (handler ⟨"POST", none, [], [], "/"⟩ ⟨some "tok", none, none⟩
        (FetchOutcome.ok ⟨204, Except.ok ""⟩) ⟨2026, 10, 11, 12, 30, 45, 123⟩).1.statusCode = 200 ∧
    (handler ⟨"POST", none, [], [], "/"⟩ ⟨some "tok", none, none⟩
        (FetchOutcome.ok ⟨204, Except.ok ""⟩) ⟨2026, 10, 11, 12, 30, 45, 123⟩).1.body.success =
      some true ∧
    (handler ⟨"POST", none, [], [], "/"⟩ ⟨some "tok", none, none⟩
        (FetchOutcome.ok ⟨204, Except.ok ""⟩) ⟨2026, 10, 11, 12, 30, 45, 123⟩).1.body.timestamp =
      some (toISOString ⟨2026, 10, 11, 12, 30, 45, 123⟩) ∧
    parseISO (toISOString ⟨2026, 10, 11, 12, 30, 45, 123⟩) =
      some ⟨2026, 10, 11, 12, 30, 45, 123⟩ :=
  relay_204_success _ _ _ _ rfl (by decide) rfl (by decide)

/-- Claim C7, counterexample: the 405 method-rejection branch sets no
headers at all, so its response does not carry the CORS-open header. -/
theorem relay_cors_missing_on_405 :
    ¬ (("Access-Control-Allow-Origin", "*") ∈
      (handler ⟨"GET", none, [], [], "/"⟩ ⟨some "tok", none, none⟩
        (FetchOutcome.ok ⟨204, Except.ok ""⟩) ⟨2026, 1, 1, 0, 0, 0, 0⟩).1.headers) := by
  decide

/-- Claim C7 (amended): every response body carries a success boolean or
an error field, and every branch except the 405 method rejection carries
the CORS-open header; the method-rejection response carries no headers. -/
theorem relay_response_shape (event : Event) (env : Env) (f : FetchOutcome) (now : DateTime) :
    ((handler event env f now).1.body.success = some true ∨
      (handler event env f now).1.body.error ≠ none) ∧
    (event.httpMethod = "POST" →
      ("Access-Control-Allow-Origin", "*") ∈ (handler event env f now).1.headers) ∧
    (event.httpMethod ≠ "POST" → (handler event env f now).1.headers = []) := by
  refine ⟨handler_success_or_error event env f now, ?_, ?_⟩
  · intro hm
    rw [handler_cors_post event env f now hm]
    simp [corsHeaders]
  · intro hm
    rw [handler_not_post event env f now hm]

/-- Witness for the amended C7 at a concrete POST request. -/
theorem relay_response_shape_witness :
    ("Access-Control-Allow-Origin", "*") ∈
      (handler ⟨"POST", none, [], [], "/"⟩ ⟨some "tok", none, none⟩
        (FetchOutcome.ok ⟨204, Except.ok ""⟩) ⟨2026, 1, 1, 0, 0, 0, 0⟩).1.headers :=
  (relay_response_shape ⟨"POST", none, [], [], "/"⟩ ⟨some "tok", none, none⟩
    (FetchOutcome.ok ⟨204, Except.ok ""⟩) ⟨2026, 1, 1, 0, 0, 0, 0⟩).2.1 rfl

/-- Claim C8: whenever the outbound call is made, it targets the fixed
workflow-dispatch endpoint for owner Tina0529, repo issue-dashboard,
workflow file update.yml, with the fixed ref main, independent of the
inbound event. -/
theorem relay_fixed_target (event : Event) (env : Env) (f : FetchOutcome) (now : DateTime)
    (hm : event.httpMethod = "POST") (ht : jsTruthy (resolvedToken env) = true) :
    (handler event env f now).2 = some (outboundRequestFor env) ∧
    (outboundRequestFor env).url =
      "https://api.github.com/repos/Tina0529/issue-dashboard/actions/workflows/update.yml/dispatches" ∧
    (outboundRequestFor env).method = "POST" ∧
    (outboundRequestFor env).ref = "main" := by
  refine ⟨?_, rfl, rfl, rfl⟩
  cases f with
  | thrown msg => rw [handler_thrown event env msg now hm ht]
  | ok resp =>
    by_cases hs : resp.status = 204
    · rw [handler_204 event env resp now hm ht hs]
    · cases htx : resp.text with
      | error msg => rw [handler_text_err event env resp now msg hm ht hs htx]
      | ok t => rw [handler_upstream_err event env resp now t hm ht hs htx]

/-- Witness for C8 at a concrete POST invocation. -/
theorem relay_fixed_target_witness :
    (handler ⟨"POST", some "ignored", [], [], "/"⟩ ⟨some "tok", none, none⟩
        (FetchOutcome.ok ⟨204, Except.ok ""⟩) ⟨2026, 1, 1, 0, 0, 0, 0⟩).2 =
      some (outboundRequestFor ⟨some "tok", none, none⟩) ∧
    (outboundRequestFor ⟨some "tok", none, none⟩).url =
      "https://api.github.com/repos/Tina0529/issue-dashboard/actions/workflows/update.yml/dispatches" ∧
    (outboundRequestFor ⟨some "tok", none, none⟩).method = "POST" ∧
    (outboundRequestFor ⟨some "tok", none, none⟩).ref = "main" :=
  relay_fixed_target _ _ _ _ rfl (by decide)

/-- Claim C9: the response and the outbound call depend only on the
inbound method, the environment, the upstream outcome, and the clock:
two events agreeing on httpMethod produce identical results, so the
inbound body, headers, query string and path are never read. -/
theorem relay_independent_of_event_extras (e1 e2 : Event) (env : Env) (f : FetchOutcome)
    (now : DateTime) (hm : e1.httpMethod = e2.httpMethod) :
    handler e1 env f now = handler e2 env f now := by
  simp only [handler, hm]

/-- Witness for C9: two POST events differing in body, headers, query
string and path give the same result. -/
theorem relay_independent_of_event_extras_witness :
    handler ⟨"POST", some "payload", [("X-Header", "1")], [("q", "2")], "/a"⟩
        ⟨some "tok", none, none⟩ (FetchOutcome.ok ⟨204, Except.ok ""⟩)
        ⟨2026, 1, 1, 0, 0, 0, 0⟩ =
      handler ⟨"POST", none, [], [], "/b"⟩ ⟨some "tok", none, none⟩
        (FetchOutcome.ok ⟨204, Except.ok ""⟩) ⟨2026, 1, 1, 0, 0, 0, 0⟩ :=
  relay_independent_of_event_extras _ _ _ _ _ rfl

/-- Claim C10: the handler is total, every response body carries a
success boolean or an error field, and both exception sites (the fetch
itself and reading the upstream body) are mapped to a 500 response whose
body carries the error message. -/
theorem relay_total_no_throw (event : Event) (env : Env) (f : FetchOutcome) (now : DateTime) :
    ((handler event env f now).1.body.success = some true ∨
      (handler event env f now).1.body.error ≠ none) ∧
    (∀ msg, event.httpMethod = "POST" → jsTruthy (resolvedToken env) = true →
      f = FetchOutcome.thrown msg →
      (handler event env f now).1.statusCode = 500 ∧
      (handler event env f now).1.body.error = some msg) ∧
    (∀ resp msg, event.httpMethod = "POST" → jsTruthy (resolvedToken env) = true →
      f = FetchOutcome.ok resp → resp.status ≠ 204 → resp.text = Except.error msg →
      (handler event env f now).1.statusCode = 500 ∧
      (handler event env f now).1.body.error = some msg) := by
  refine ⟨handler_success_or_error event env f now, ?_, ?_⟩
  · intro msg hm ht hf
    subst hf
    rw [handler_thrown event env msg now hm ht]
    exact ⟨rfl, rfl⟩
  · intro resp msg hm ht hf hs htx
    subst hf
    rw [handler_text_err event env resp now msg hm ht hs htx]
    exact ⟨rfl, rfl⟩

/-- Witness for C10 at a concrete rejected body read. -/
theorem relay_total_no_throw_witness :
    (handler ⟨"POST", none, [], [], "/"⟩ ⟨none, none, some "pat"⟩
        (FetchOutcome.ok ⟨500, Except.error "body timeout"⟩)
        ⟨2026, 1, 1, 0, 0, 0, 0⟩).1.statusCode = 500 ∧
    (handler ⟨"POST", none, [], [], "/"⟩ ⟨none, none, some "pat"⟩
        (FetchOutcome.ok ⟨500, Except.error "body timeout"⟩)
        ⟨2026, 1, 1, 0, 0, 0, 0⟩).1.body.error = some "body timeout" :=
  (relay_total_no_throw _ _ _ _).2.2 ⟨500, Except.error "body timeout"⟩ "body timeout"
    rfl (by decide) rfl (by decide) rfl
